import Mathlib

/-!
Verification development for the lettuce mechanistic growth model
(`base_lettuce_model.py`): two-pool biomass state, ODE right-hand side
(photosynthesis, respiration, growth partitioning, canopy light
interception), RK4 integrator, parameter store and its derived flat
coefficient vector.

Real-valued arithmetic of the source is embedded over `ℝ`; the Python
`**` on floats is `Real.rpow`, `np.exp` is `Real.exp`.  The parameter
dictionary is an association list from names to values.  A Python
`raise` is embedded as an `Except` error value; for mutating methods the
error carries the model as it stood when the exception was raised, so
"the object is left unchanged" is expressible.
-/

/-- Parameter dictionary: coefficient name to value. -/
abbrev Params : Type := List (String × ℝ)

/-- Errors raised by the model (`ValueError` cases in the source). -/
inductive ModelError : Type where
  | nonPositiveDryWeight : ModelError
  | nonPositiveDensity : ModelError
  | missingParams (keys : List String) : ModelError
  | unknownParams (keys : List String) : ModelError
  | lightRangeError : ModelError
deriving DecidableEq

/-- `_beer_lambert(lai, k)` from the source: `-np.exp(-k * lai) + 1`. -/
noncomputable def beer_lambert (lai k : ℝ) : ℝ := -Real.exp (-k * lai) + 1

/-- The light-interception term of `_model_core`: Beer–Lambert on the
population-scaled structural weight when the method flag is `0`, the
external override (last slot of the coefficient array) otherwise. -/
noncomputable def lightInterception (light_interception_method : ℤ)
    (c_lar c_t c_k x1 external_li : ℝ) : ℝ :=
  if light_interception_method = 0 then beer_lambert (c_lar * (1 - c_t) * x1) c_k
  else external_li

/-- `_model_core(x, u, params_array, light_interception_method)` from the
source: the ODE right-hand side.  `x` is the per-plant state pair,
`u = (t, r, co2, pd)` the control vector, `params_array` the positional
coefficient vector (21 slots, the last being the external
light-interception override). -/
noncomputable def model_core (x : ℝ × ℝ) (u : ℝ × ℝ × ℝ × ℝ)
    (params_array : List ℝ) (light_interception_method : ℤ) : ℝ × ℝ :=
  let t := u.1
  let r := u.2.1
  let co2 := u.2.2.1
  let pd := u.2.2.2
  let X : ℝ × ℝ := (x.1 * pd, x.2 * pd)
  let c_R := params_array.getD 0 0
  let c_Q10_R := params_array.getD 1 0
  let c_epsilon := params_array.getD 2 0
  let c_w := params_array.getD 3 0
  let g_bnd := params_array.getD 4 0
  let g_stm := params_array.getD 5 0
  let c_car_1 := params_array.getD 6 0
  let c_car_2 := params_array.getD 7 0
  let c_car_3 := params_array.getD 8 0
  let c_gr_max := params_array.getD 9 0
  let c_r := params_array.getD 10 0
  let c_resp_sht := params_array.getD 11 0
  let c_resp_rt := params_array.getD 12 0
  let c_Q10_gr := params_array.getD 13 0
  let c_Q10_resp := params_array.getD 14 0
  let c_t := params_array.getD 15 0
  let c_k := params_array.getD 16 0
  let c_lar := params_array.getD 17 0
  let c_a := params_array.getD 18 0
  let c_b := params_array.getD 19 0
  let external_li := params_array.getD 20 0
  let R := c_R * c_Q10_R ^ ((t - 20) / 10)
  let lue := c_epsilon * (co2 - R) / (co2 + 2 * R)
  let g_co2 := 1 / (1 / g_bnd + 1 / g_stm + 1 / (c_car_1 * t ^ 2 + c_car_2 * t + c_car_3))
  let light_interception :=
    lightInterception light_interception_method c_lar c_t c_k X.2 external_li
  let f_photo_max := lue * r * g_co2 * c_w * (co2 - R) /
      (lue * r + g_co2 * c_w * (co2 - R))
  let f_photo := f_photo_max * light_interception
  let rgr := c_gr_max * (X.1 / (c_r * X.2 + X.1)) * c_Q10_gr ^ ((t - 20) / 10)
  let f_resp := (c_resp_sht * (1 - c_t) * X.2 + c_resp_rt * c_t * X.2) *
      c_Q10_resp ^ ((t - 25) / 10)
  ((c_a * f_photo - rgr * X.2 - f_resp - (1 - c_b) / c_b * rgr * X.2) / pd,
   rgr * X.2 / pd)

/-- `BaseLettuceMechanisticModel`: the model object's fields. -/
structure Model : Type where
  parameters : Params
  light_interception_method : ℤ
  external_light_interception : ℝ
  state0 : ℝ
  state : ℝ × ℝ
  h : ℝ
  plant_density : ℤ
  params_array : List ℝ

/-- The positional order of the 20 named coefficients in the derived
flat vector (`_init_params_array` in the source). -/
def paramsOrder : List String :=
  ["c_R", "c_Q10_R", "c_epsilon", "c_w", "g_bnd", "g_stm",
   "c_car_1", "c_car_2", "c_car_3", "c_gr_max", "c_r",
   "c_resp_sht", "c_resp_rt", "c_Q10_gr", "c_Q10_resp",
   "c_t", "c_k", "c_lar", "c_a", "c_b"]

/-- The 20 required parameter keys, in the order of the source's
`required_params` set literal (`_validate_inputs`). -/
def requiredParams : List String :=
  ["c_a", "c_b", "c_gr_max", "c_r", "c_resp_sht", "c_resp_rt",
   "c_Q10_gr", "c_Q10_resp", "c_t", "c_k", "c_lar", "c_epsilon",
   "c_w", "c_R", "c_Q10_R", "g_bnd", "g_stm", "c_car_1",
   "c_car_2", "c_car_3"]

/-- `required_params - set(parameters.keys())`: the required keys absent
from the dictionary. -/
def missingKeys (parameters : Params) : List String :=
  requiredParams.filter fun k => (List.lookup k parameters).isNone

/-- `_validate_inputs(plant_dw, plant_density, parameters)`: dry weight
and density must be positive, all required keys present; checks in the
source's order. -/
noncomputable def validate_inputs (plant_dw : ℝ) (plant_density : ℤ)
    (parameters : Params) : Except ModelError Unit :=
  if plant_dw ≤ 0 then .error .nonPositiveDryWeight
  else if plant_density ≤ 0 then .error .nonPositiveDensity
  else if missingKeys parameters = [] then .ok ()
  else .error (.missingParams (missingKeys parameters))

/-- `_init_params_array`: rebuild the flat coefficient vector from the
dictionary in the fixed positional order, appending the current external
light-interception override as the 21st slot. -/
def Model.init_params_array (m : Model) : Model :=
  { m with params_array :=
      (paramsOrder.map fun k => (List.lookup k m.parameters).getD 0)
        ++ [m.external_light_interception] }

/-- `__init__`: validate, then build the model with the 20/80 biomass
split, `h = control_rate * 60` seconds, override `0`, and the derived
coefficient vector. -/
noncomputable def construct (plant_dw : ℝ) (plant_density : ℤ)
    (parameters : Params) (control_rate : ℤ) (light_interception_method : ℤ) :
    Except ModelError Model :=
  match validate_inputs plant_dw plant_density parameters with
  | .error e => .error e
  | .ok _ =>
      .ok (Model.init_params_array
        { parameters := parameters
          light_interception_method := light_interception_method
          external_light_interception := 0
          state0 := plant_dw
          state := (plant_dw * 0.2, plant_dw * 0.8)
          h := (control_rate : ℝ) * 60
          plant_density := plant_density
          params_array := [] })

/-- Python `dict.update`: existing keys keep their position with the new
value; genuinely new keys are appended in order. -/
def dictUpdate (d new : Params) : Params :=
  (d.map fun kv => match List.lookup kv.1 new with
    | some v => (kv.1, v)
    | none => kv)
  ++ new.filter fun kv => (List.lookup kv.1 d).isNone

/-- `update_parameters(**new_params)`: reject the whole update when any
supplied key is unknown (error carries the untouched model), else merge
and rebuild the coefficient vector. -/
def Model.update_parameters (m : Model) (new_params : Params) :
    Except (ModelError × Model) Model :=
  let unknown := (new_params.map Prod.fst).filter fun k =>
    (List.lookup k m.parameters).isNone
  if unknown = [] then
    .ok (Model.init_params_array { m with parameters := dictUpdate m.parameters new_params })
  else .error (.unknownParams unknown, m)

/-- `set_external_light_interception(value)`: range-check into `[0, 1]`
(error carries the untouched model), then store the value in the field
and in the last slot of the coefficient vector. -/
noncomputable def Model.set_external_light_interception (m : Model) (value : ℝ) :
    Except (ModelError × Model) Model :=
  if 0 ≤ value ∧ value ≤ 1 then
    .ok { m with external_light_interception := value
                 params_array := m.params_array.set (m.params_array.length - 1) value }
  else .error (.lightRangeError, m)

/-- `step(action)`: one RK4 step of length `h` with a zero-order hold on
the control vector and coefficient vector. -/
noncomputable def Model.step (m : Model) (action : ℝ × ℝ × ℝ × ℝ) : Model :=
  let method_flag := m.light_interception_method
  let k1 := model_core m.state action m.params_array method_flag
  let k2 := model_core (m.state + (m.h / 2) • k1) action m.params_array method_flag
  let k3 := model_core (m.state + (m.h / 2) • k2) action m.params_array method_flag
  let k4 := model_core (m.state + m.h • k3) action m.params_array method_flag
  { m with state := m.state + (m.h / 6) • (k1 + (2 : ℝ) • k2 + (2 : ℝ) • k3 + k4) }

/-- `reset()`: restore the 20/80 split of the initial dry weight. -/
def Model.reset (m : Model) : Model :=
  { m with state := (m.state0 * 0.2, m.state0 * 0.8) }

/-- The spec's closed-form reference for the ODE right-hand side
(spec §4.3, transcribed from its words, with the coefficient vector read
in the spec §6 positional order): scale the state by the population
density, evaluate the physiological submodels, return the per-plant rate
pair divided by the density. -/
noncomputable def specODE (x0 x1 temp rad co2 pop_density : ℝ)
    (pa : List ℝ) (mode : ℤ) : ℝ × ℝ :=
  let c_R := pa.getD 0 0
  let c_Q10_R := pa.getD 1 0
  let c_epsilon := pa.getD 2 0
  let c_w := pa.getD 3 0
  let g_bnd := pa.getD 4 0
  let g_stm := pa.getD 5 0
  let c_car_1 := pa.getD 6 0
  let c_car_2 := pa.getD 7 0
  let c_car_3 := pa.getD 8 0
  let c_gr_max := pa.getD 9 0
  let c_r := pa.getD 10 0
  let c_resp_sht := pa.getD 11 0
  let c_resp_rt := pa.getD 12 0
  let c_Q10_gr := pa.getD 13 0
  let c_Q10_resp := pa.getD 14 0
  let c_t := pa.getD 15 0
  let c_k := pa.getD 16 0
  let c_lar := pa.getD 17 0
  let c_a := pa.getD 18 0
  let c_b := pa.getD 19 0
  let X0 := x0 * pop_density
  let X1 := x1 * pop_density
  let R := c_R * c_Q10_R ^ ((temp - 20) / 10)
  let lue := c_epsilon * (co2 - R) / (co2 + 2 * R)
  let g_co2 := 1 / (1 / g_bnd + 1 / g_stm +
      1 / (c_car_1 * temp ^ 2 + c_car_2 * temp + c_car_3))
  let lai := c_lar * (1 - c_t) * X1
  let interception := if mode = 0 then 1 - Real.exp (-c_k * lai) else pa.getD 20 0
  let f_photo_max := lue * rad * g_co2 * c_w * (co2 - R) /
      (lue * rad + g_co2 * c_w * (co2 - R))
  let f_photo := f_photo_max * interception
  let rgr := c_gr_max * (X0 / (c_r * X1 + X0)) * c_Q10_gr ^ ((temp - 20) / 10)
  let f_resp := (c_resp_sht * (1 - c_t) * X1 + c_resp_rt * c_t * X1) *
      c_Q10_resp ^ ((temp - 25) / 10)
  ((c_a * f_photo - rgr * X1 - f_resp - (1 - c_b) / c_b * rgr * X1) / pop_density,
   rgr * X1 / pop_density)

/-- A complete concrete parameter dictionary used by witnesses. -/
def psW : Params :=
  [("c_R", 1), ("c_Q10_R", 1), ("c_epsilon", 1), ("c_w", 1), ("g_bnd", 1),
   ("g_stm", 1), ("c_car_1", 1), ("c_car_2", 1), ("c_car_3", 1),
   ("c_gr_max", 1), ("c_r", 1), ("c_resp_sht", 1), ("c_resp_rt", 1),
   ("c_Q10_gr", 1), ("c_Q10_resp", 1), ("c_t", 1), ("c_k", 1),
   ("c_lar", 1), ("c_a", 1), ("c_b", 1)]

/-- The concrete model produced by `construct 1 90 psW 5 0`. -/
noncomputable def MW : Model :=
  Model.init_params_array
    { parameters := psW
      light_interception_method := 0
      external_light_interception := 0
      state0 := 1
      state := (1 * 0.2, 1 * 0.8)
      h := ((5 : ℤ) : ℝ) * 60
      plant_density := 90
      params_array := [] }

/-- Concrete parameter dictionary for the radiation-0 growth experiment:
maintenance-respiration coefficients positive, every Q10 base 1, no CO2
compensation, unit conductances. -/
noncomputable def pD7 : Params :=
  [("c_R", 0), ("c_Q10_R", 1), ("c_epsilon", 1), ("c_w", 1), ("g_bnd", 1),
   ("g_stm", 1), ("c_car_1", 0), ("c_car_2", 0), ("c_car_3", 1),
   ("c_gr_max", 1 / 3000), ("c_r", 0), ("c_resp_sht", 1 / 3000),
   ("c_resp_rt", 1 / 3000), ("c_Q10_gr", 1), ("c_Q10_resp", 1),
   ("c_t", 1 / 2), ("c_k", 1), ("c_lar", 1), ("c_a", 1), ("c_b", 1)]

/-- The concrete model produced by `construct 5 1 pD7 5 1` (External
light-interception mode, initial dry weight 5, so state `(1, 4)`). -/
noncomputable def MC7 : Model :=
  Model.init_params_array
    { parameters := pD7
      light_interception_method := 1
      external_light_interception := 0
      state0 := 5
      state := (5 * 0.2, 5 * 0.8)
      h := ((5 : ℤ) : ℝ) * 60
      plant_density := 1
      params_array := [] }

/-- A 21-slot coefficient vector of ones, used by witnesses. -/
def pa7 : List ℝ :=
  [1, 1, 1, 1, 1, 1, 1, 1, 1, 1, 1, 1, 1, 1, 1, 1, 1, 1, 1, 1, 1]

/-- A known-key partial update, used by witnesses. -/
def updGood : Params := [("c_a", 2)]

/-- A partial update with an unknown key, used by witnesses. -/
def updBad : Params := [("zzz", 2)]

/-- The model obtained from `MW` by an accepted override `0.42`. -/
noncomputable def M42 : Model :=
  { MW with external_light_interception := 0.42
            params_array := MW.params_array.set (MW.params_array.length - 1) 0.42 }

/-- The model obtained from `MW` by the successful update `updGood`. -/
noncomputable def MUpd : Model :=
  Model.init_params_array { MW with parameters := dictUpdate MW.parameters updGood }

/-- Helper: a successful construction pins down the returned model record
and the success of validation. -/
theorem construct_ok_elim (plant_dw : ℝ) (plant_density : ℤ)
    (parameters : Params) (control_rate light_interception_method : ℤ)
    (m : Model)
    (hc : construct plant_dw plant_density parameters control_rate
      light_interception_method = Except.ok m) :
    validate_inputs plant_dw plant_density parameters = Except.ok () ∧
    m = Model.init_params_array
      { parameters := parameters
        light_interception_method := light_interception_method
        external_light_interception := 0
        state0 := plant_dw
        state := (plant_dw * 0.2, plant_dw * 0.8)
        h := (control_rate : ℝ) * 60
        plant_density := plant_density
        params_array := [] } := by
  unfold construct at hc
  cases hv : validate_inputs plant_dw plant_density parameters with
  | error e => rw [hv] at hc; exact absurd hc (by simp)
  | ok u => rw [hv] at hc; cases u; simp only [Except.ok.injEq] at hc; exact ⟨rfl, hc.symm⟩

/-- C1: for every state, control vector with nonzero population density,
coefficient vector and mode flag, the ODE right-hand side computed by
`model_core` equals the spec's closed-form reference `specODE`. -/
theorem model_core_matches_specODE (x0 x1 temp rad co2 pop_density : ℝ)
    (pa : List ℝ) (mode : ℤ) (hpd : pop_density ≠ 0) :
    model_core (x0, x1) (temp, rad, co2, pop_density) pa mode =
      specODE x0 x1 temp rad co2 pop_density pa mode := by
  simp only [model_core, specODE, lightInterception, beer_lambert]
  split_ifs with hm
  · rw [Prod.mk.injEq]; exact ⟨by ring, by ring⟩
  · rw [Prod.mk.injEq]; exact ⟨by ring, by ring⟩

/-- Witness for C1 at a concrete input. -/
theorem model_core_matches_specODE_witness :
    (1 : ℝ) ≠ 0 ∧
    model_core (1, 1) (20, 0, 1, 1) pa7 0 = specODE 1 1 20 0 1 1 pa7 0 :=
  ⟨one_ne_zero, model_core_matches_specODE 1 1 20 0 1 1 pa7 0 one_ne_zero⟩

/-- Helper: the witness dictionary passes validation. -/
theorem validate_psW : validate_inputs 1 90 psW = Except.ok () := by
  unfold validate_inputs
  rw [if_neg (by norm_num), if_neg (by decide), if_pos (by decide)]

/-- Helper: constructing the witness model succeeds and yields `MW`. -/
theorem construct_MW : construct 1 90 psW 5 0 = Except.ok MW := by
  unfold construct
  rw [validate_psW]
  rfl

/-- C2: one call to `step` on a constructed model replaces the state by
the classical RK4 update `x + h/6*(k1 + 2*k2 + 2*k3 + k4)` with
`h = control_rate * 60` seconds, the four stages evaluated by the rate
function on the same control vector and the same coefficient vector. -/
theorem step_is_rk4 (plant_dw : ℝ) (plant_density : ℤ) (parameters : Params)
    (control_rate light_interception_method : ℤ) (m : Model) (u : ℝ × ℝ × ℝ × ℝ)
    (hc : construct plant_dw plant_density parameters control_rate
      light_interception_method = Except.ok m) :
    m.h = (control_rate : ℝ) * 60 ∧
    m.step u =
      (let f := fun x => model_core x u m.params_array m.light_interception_method
       let k1 := f m.state
       let k2 := f (m.state + (m.h / 2) • k1)
       let k3 := f (m.state + (m.h / 2) • k2)
       let k4 := f (m.state + m.h • k3)
       { m with state := m.state + (m.h / 6) • (k1 + (2 : ℝ) • k2 + (2 : ℝ) • k3 + k4) }) := by
  obtain ⟨-, hm⟩ := construct_ok_elim plant_dw plant_density parameters
    control_rate light_interception_method m hc
  exact ⟨by rw [hm]; rfl, rfl⟩

/-- Witness for C2 at a concrete construction. -/
theorem step_is_rk4_witness :
    construct 1 90 psW 5 0 = Except.ok MW ∧ MW.h = ((5 : ℤ) : ℝ) * 60 :=
  ⟨construct_MW, (step_is_rk4 1 90 psW 5 0 MW (20, 0, 1, 1) construct_MW).1⟩

/-- C3: construction fails with an input error exactly when the dry
weight is nonpositive, the density is nonpositive, or a required key is
missing; in the missing-keys case the error enumerates the missing keys;
an error means no model is produced. -/
theorem construct_validation (plant_dw : ℝ) (plant_density : ℤ)
    (parameters : Params) (control_rate light_interception_method : ℤ) :
    ((∃ e, construct plant_dw plant_density parameters control_rate
        light_interception_method = Except.error e) ↔
      (plant_dw ≤ 0 ∨ plant_density ≤ 0 ∨ missingKeys parameters ≠ [])) ∧
    (¬ plant_dw ≤ 0 → ¬ plant_density ≤ 0 → missingKeys parameters ≠ [] →
      construct plant_dw plant_density parameters control_rate
          light_interception_method =
        Except.error (ModelError.missingParams (missingKeys parameters))) := by
  unfold construct validate_inputs
  split_ifs with h1 h2 h3
  · exact ⟨by simp [h1], fun hc => absurd h1 hc⟩
  · exact ⟨by simp [h1, h2], fun _ hc => absurd h2 hc⟩
  · exact ⟨by simp [h1, h2, h3], fun _ _ hc => absurd h3 hc⟩
  · exact ⟨by simp [h1, h2, h3], fun _ _ _ => rfl⟩

/-- Witness for C3: an empty dictionary is rejected with the full list
of missing keys. -/
theorem construct_validation_witness :
    construct 1 90 [] 5 0 = Except.error (ModelError.missingParams (missingKeys [])) :=
  (construct_validation 1 90 [] 5 0).2 (by norm_num) (by decide) (by decide)

/-- C4: an update containing an unknown key is rejected with an error
carrying the model unchanged (no partial merge); an update whose keys
are all known merges the values and regenerates the coefficient
vector. -/
theorem update_parameters_spec (m : Model) (new_params : Params) :
    ((∃ kv ∈ new_params, List.lookup kv.1 m.parameters = none) →
      m.update_parameters new_params =
        Except.error (ModelError.unknownParams
          ((new_params.map Prod.fst).filter fun k =>
            (List.lookup k m.parameters).isNone), m)) ∧
    ((∀ kv ∈ new_params, List.lookup kv.1 m.parameters ≠ none) →
      m.update_parameters new_params =
        Except.ok (Model.init_params_array
          { m with parameters := dictUpdate m.parameters new_params })) := by
  simp only [Model.update_parameters]
  split_ifs with h
  · refine ⟨fun ⟨kv, hmem, hnone⟩ => ?_, fun _ => rfl⟩
    have : kv.1 ∈ (new_params.map Prod.fst).filter fun k =>
        (List.lookup k m.parameters).isNone := by
      refine List.mem_filter.mpr ⟨List.mem_map.mpr ⟨kv, hmem, rfl⟩, ?_⟩
      simp [hnone]
    rw [h] at this
    exact absurd this (List.not_mem_nil _)
  · refine ⟨fun _ => rfl, fun hall => absurd ?_ h⟩
    rw [List.filter_eq_nil_iff]
    intro k hk
    obtain ⟨kv, hkv, rfl⟩ := List.mem_map.mp hk
    simp [Option.isNone_iff_eq_none, hall kv hkv]

/-- Witness for C4: the unknown key `zzz` is rejected with `MW`
untouched. -/
theorem update_parameters_spec_witness :
    MW.update_parameters updBad =
      Except.error (ModelError.unknownParams
        ((updBad.map Prod.fst).filter fun k =>
          (List.lookup k MW.parameters).isNone), MW) :=
  (update_parameters_spec MW updBad).1 ⟨("zzz", 2), by simp [updBad], rfl⟩

/-- Helper: stepping never changes the stored initial dry weight. -/
theorem foldl_step_state0 (us : List (ℝ × ℝ × ℝ × ℝ)) :
    ∀ m : Model, (us.foldl Model.step m).state0 = m.state0 := by
  induction us with
  | nil => intro m; rfl
  | cons u us ih => intro m; rw [List.foldl_cons, ih]; rfl

/-- C5: after any finite sequence of steps, `reset` restores the state
to exactly the 20/80 split of the initial dry weight — the state the
model had right after construction — and leaves the parameter store, the
coefficient vector and the light-interception mode of the stepped model
untouched. -/
theorem reset_restores (plant_dw : ℝ) (plant_density : ℤ) (parameters : Params)
    (control_rate light_interception_method : ℤ) (m : Model)
    (us : List (ℝ × ℝ × ℝ × ℝ))
    (hc : construct plant_dw plant_density parameters control_rate
      light_interception_method = Except.ok m) :
    ((us.foldl Model.step m).reset).state = (0.2 * plant_dw, 0.8 * plant_dw) ∧
    ((us.foldl Model.step m).reset).state = m.state ∧
    ((us.foldl Model.step m).reset).parameters = (us.foldl Model.step m).parameters ∧
    ((us.foldl Model.step m).reset).params_array = (us.foldl Model.step m).params_array ∧
    ((us.foldl Model.step m).reset).light_interception_method =
      (us.foldl Model.step m).light_interception_method := by
  obtain ⟨-, hm⟩ := construct_ok_elim plant_dw plant_density parameters
    control_rate light_interception_method m hc
  have h0 : (us.foldl Model.step m).state0 = plant_dw := by
    rw [foldl_step_state0, hm]
    rfl
  have hr : ((us.foldl Model.step m).reset).state =
      (plant_dw * 0.2, plant_dw * 0.8) := by
    show ((us.foldl Model.step m).state0 * 0.2, (us.foldl Model.step m).state0 * 0.8) =
      (plant_dw * 0.2, plant_dw * 0.8)
    rw [h0]
  refine ⟨?_, ?_, rfl, rfl, rfl⟩
  · rw [hr, Prod.mk.injEq]; exact ⟨mul_comm _ _, mul_comm _ _⟩
  · rw [hr, hm]
    rfl

/-- Witness for C5 at a concrete construction (two steps, then reset). -/
theorem reset_restores_witness :
    construct 1 90 psW 5 0 = Except.ok MW ∧
    ((([(20, 100, 800, 90), (22, 50, 600, 90)] :
        List (ℝ × ℝ × ℝ × ℝ)).foldl Model.step MW).reset).state = (0.2 * 1, 0.8 * 1) :=
  ⟨construct_MW,
   (reset_restores 1 90 psW 5 0 MW [(20, 100, 800, 90), (22, 50, 600, 90)]
     construct_MW).1⟩

/-- C6: an out-of-range external light-interception value is rejected
with the model unchanged; an accepted value is stored, and in External
mode the interception term used by the rate function equals exactly that
value, for every structural weight. -/
theorem set_external_spec (m : Model) (v : ℝ) :
    (¬ (0 ≤ v ∧ v ≤ 1) →
      m.set_external_light_interception v =
        Except.error (ModelError.lightRangeError, m)) ∧
    (∀ m', m.set_external_light_interception v = Except.ok m' →
      m'.external_light_interception = v ∧
      (m.params_array.length = 21 →
        ∀ c_lar c_t c_k x1 : ℝ,
          lightInterception 1 c_lar c_t c_k x1 (m'.params_array.getD 20 0) = v)) := by
  unfold Model.set_external_light_interception
  split_ifs with h
  · refine ⟨fun hcon => absurd h hcon, fun m' hm' => ?_⟩
    simp only [Except.ok.injEq] at hm'
    subst hm'
    refine ⟨rfl, fun hlen c_lar c_t c_k x1 => ?_⟩
    have h20 : (m.params_array.set (m.params_array.length - 1) v).getD 20 0 = v := by
      rw [hlen]
      have hlt : 20 < (m.params_array.set 20 v).length := by
        rw [List.length_set, hlen]
        norm_num
      rw [List.getD_eq_getElem _ _ hlt]
      exact List.getElem_set_self _
    show lightInterception 1 c_lar c_t c_k x1
      ((m.params_array.set (m.params_array.length - 1) v).getD 20 0) = v
    rw [h20]
    unfold lightInterception
    rw [if_neg (by norm_num)]
  · exact ⟨fun _ => rfl, fun m' hm' => absurd hm' (by simp)⟩

/-- Witness for C6: `1.5` is rejected with `MW` unchanged; the accepted
`0.42` is the interception term in External mode at structural weight
`7`. -/
theorem set_external_spec_witness :
    MW.set_external_light_interception 1.5 =
      Except.error (ModelError.lightRangeError, MW) ∧
    lightInterception 1 1 1 1 7 (M42.params_array.getD 20 0) = 0.42 := by
  have hok : MW.set_external_light_interception 0.42 = Except.ok M42 := by
    unfold Model.set_external_light_interception
    rw [if_pos (by norm_num)]
    rfl
  exact ⟨(set_external_spec MW 1.5).1 (by norm_num),
    (((set_external_spec MW 0.42).2 M42 hok).2 rfl 1 1 1 7)⟩

/-- C9: a successful `update_parameters` changes only the parameter
store and the derived coefficient vector — the biomass state, the step
interval, the population density, the light-interception mode (and the
override and initial weight) are untouched. -/
theorem update_frame (m : Model) (new_params : Params) (m' : Model)
    (hok : m.update_parameters new_params = Except.ok m') :
    m'.state = m.state ∧ m'.h = m.h ∧ m'.plant_density = m.plant_density ∧
    m'.light_interception_method = m.light_interception_method ∧
    m'.state0 = m.state0 ∧
    m'.external_light_interception = m.external_light_interception := by
  simp only [Model.update_parameters] at hok
  split_ifs at hok with hu
  · simp only [Except.ok.injEq] at hok
    subst hok
    exact ⟨rfl, rfl, rfl, rfl, rfl, rfl⟩

/-- Witness for C9 at a concrete successful update. -/
theorem update_frame_witness :
    MW.update_parameters updGood = Except.ok MUpd ∧ MUpd.state = MW.state :=
  ⟨rfl, (update_frame MW updGood MUpd rfl).1⟩

/-- C10: after construction and after every successful update, the flat
coefficient vector has exactly 21 slots, its first 20 entries being the
parameter-store values in the fixed positional order `paramsOrder`, and
its last slot the current external override — `0` right after
construction, and preserved (not reset) by the re-derivation during an
update. -/
theorem params_array_layout :
    (∀ (plant_dw : ℝ) (plant_density : ℤ) (parameters : Params)
      (control_rate light_interception_method : ℤ) (m : Model),
      construct plant_dw plant_density parameters control_rate
          light_interception_method = Except.ok m →
      m.params_array =
        (paramsOrder.map fun k => (List.lookup k m.parameters).getD 0)
          ++ [m.external_light_interception] ∧
      m.params_array.length = 21 ∧ m.external_light_interception = 0) ∧
    (∀ (m : Model) (new_params : Params) (m' : Model),
      m.update_parameters new_params = Except.ok m' →
      m'.params_array =
        (paramsOrder.map fun k => (List.lookup k m'.parameters).getD 0)
          ++ [m'.external_light_interception] ∧
      m'.params_array.length = 21 ∧
      m'.external_light_interception = m.external_light_interception) := by
  constructor
  · intro plant_dw plant_density parameters control_rate light_interception_method m hc
    obtain ⟨-, hm⟩ := construct_ok_elim plant_dw plant_density parameters
      control_rate light_interception_method m hc
    subst hm
    exact ⟨rfl, rfl, rfl⟩
  · intro m new_params m' hok
    simp only [Model.update_parameters] at hok
    split_ifs at hok with hu
    · simp only [Except.ok.injEq] at hok
      subst hok
      exact ⟨rfl, rfl, rfl⟩

/-- Witness for C10 at a concrete construction. -/
theorem params_array_layout_witness :
    construct 1 90 psW 5 0 = Except.ok MW ∧
    MW.params_array.length = 21 ∧ MW.external_light_interception = 0 :=
  ⟨construct_MW,
   (params_array_layout.1 1 90 psW 5 0 MW construct_MW).2⟩

/-- Helper: in Beer–Lambert mode the interception term is the
Beer–Lambert law and ignores the override slot. -/
theorem lightInterception_zero (c_lar c_t c_k x1 e : ℝ) :
    lightInterception 0 c_lar c_t c_k x1 e =
      beer_lambert (c_lar * (1 - c_t) * x1) c_k := by
  simp [lightInterception]

/-- Helper: in Beer–Lambert mode the rate function reads only the first
20 slots of the coefficient vector. -/
theorem model_core_bl_congr (x : ℝ × ℝ) (u : ℝ × ℝ × ℝ × ℝ)
    (pa₁ pa₂ : List ℝ) (hpa : ∀ i, i < 20 → pa₁.getD i 0 = pa₂.getD i 0) :
    model_core x u pa₁ 0 = model_core x u pa₂ 0 := by
  simp only [model_core, lightInterception_zero]
  rw [hpa 0 (by norm_num), hpa 1 (by norm_num), hpa 2 (by norm_num),
    hpa 3 (by norm_num), hpa 4 (by norm_num), hpa 5 (by norm_num),
    hpa 6 (by norm_num), hpa 7 (by norm_num), hpa 8 (by norm_num),
    hpa 9 (by norm_num), hpa 10 (by norm_num), hpa 11 (by norm_num),
    hpa 12 (by norm_num), hpa 13 (by norm_num), hpa 14 (by norm_num),
    hpa 15 (by norm_num), hpa 16 (by norm_num), hpa 17 (by norm_num),
    hpa 18 (by norm_num), hpa 19 (by norm_num)]

/-- Helper: two Beer–Lambert-mode models with equal state, interval and
first 20 coefficient slots step to equal states. -/
theorem step_state_congr (m₁ m₂ : Model) (u : ℝ × ℝ × ℝ × ℝ)
    (hstate : m₁.state = m₂.state) (hh : m₁.h = m₂.h)
    (hm1 : m₁.light_interception_method = 0)
    (hm2 : m₂.light_interception_method = 0)
    (hpa : ∀ i, i < 20 → m₁.params_array.getD i 0 = m₂.params_array.getD i 0) :
    (m₁.step u).state = (m₂.step u).state := by
  have hcore : ∀ x, model_core x u m₁.params_array m₁.light_interception_method =
      model_core x u m₂.params_array m₂.light_interception_method := by
    intro x
    rw [hm1, hm2]
    exact model_core_bl_congr x u _ _ hpa
  show m₁.state + (m₁.h / 6) • _ = m₂.state + (m₂.h / 6) • _
  rw [hstate, hh]
  simp only [hcore]

/-- C8: in Beer–Lambert mode the stored external override has no effect
on `step`: overwriting the override slot (first part), or having called
the setter successfully beforehand (second part), leaves the stepped
state identical. -/
theorem step_override_noninterference :
    (∀ (m : Model) (w : ℝ) (u : ℝ × ℝ × ℝ × ℝ),
      m.light_interception_method = 0 → m.params_array.length = 21 →
      ((({ m with external_light_interception := w, params_array := m.params_array.set (m.params_array.length - 1) w } : Model).step u).state = (m.step u).state)) ∧
    (∀ (m : Model) (v : ℝ) (m' : Model) (u : ℝ × ℝ × ℝ × ℝ),
      m.light_interception_method = 0 → m.params_array.length = 21 →
      m.set_external_light_interception v = Except.ok m' →
      (m'.step u).state = (m.step u).state) := by
  have key : ∀ (m : Model) (w : ℝ) (u : ℝ × ℝ × ℝ × ℝ),
      m.light_interception_method = 0 → m.params_array.length = 21 →
      ((({ m with external_light_interception := w, params_array := m.params_array.set (m.params_array.length - 1) w } : Model).step u).state = (m.step u).state) := by
    intro m w u hm0 hlen
    refine step_state_congr _ _ _ rfl rfl hm0 hm0 ?_
    intro i hi
    show (m.params_array.set (m.params_array.length - 1) w).getD i 0 =
      m.params_array.getD i 0
    rw [hlen]
    rw [List.getD_eq_getD_get?, List.getD_eq_getD_get?]
    have hne : i ≠ 21 - 1 := by omega
    simp [List.get?_eq_getElem?, List.getElem?_set_ne hne.symm]
  refine ⟨key, ?_⟩
  intro m v m' u hm0 hlen hok
  simp only [Model.set_external_light_interception] at hok
  split_ifs at hok with hrange
  simp only [Except.ok.injEq] at hok
  subst hok
  exact key m v u hm0 hlen

/-- Witness for C8 at a concrete Beer–Lambert-mode model. -/
theorem step_override_noninterference_witness :
    (({ MW with external_light_interception := 1, params_array := MW.params_array.set (MW.params_array.length - 1) 1 } : Model).step (20, 100, 800, 90)).state = (MW.step (20, 100, 800, 90)).state :=
  step_override_noninterference.1 MW 1 (20, 100, 800, 90) rfl rfl

/-- Helper: the radiation-0 experiment dictionary passes validation. -/
theorem validate_pD7 : validate_inputs 5 1 pD7 = Except.ok () := by
  unfold validate_inputs
  rw [if_neg (by norm_num), if_neg (by decide), if_pos (by decide)]

/-- Helper: constructing the radiation-0 experiment model succeeds. -/
theorem construct_MC7 : construct 5 1 pD7 5 1 = Except.ok MC7 := by
  unfold construct
  rw [validate_pD7]
  rfl

/-- C7 counterexample: a constructed model with positive
maintenance-respiration parameters, stepped once with radiation 0,
strictly increases its structural weight `x1` (growth is funded by the
positive assimilate pool `x0`), refuting the claim that such a step
cannot increase `x1`. -/
theorem step_increases_x1_without_radiation :
    construct 5 1 pD7 5 1 = Except.ok MC7 ∧
    MC7.state.2 < (MC7.step (20, 0, 1, 1)).state.2 := by
  refine ⟨construct_MC7, ?_⟩
  have hst : MC7.state = ((1 : ℝ), (4 : ℝ)) := by
    show ((5 * 0.2 : ℝ), (5 * 0.8 : ℝ)) = ((1 : ℝ), (4 : ℝ))
    rw [Prod.mk.injEq]
    norm_num
  have hh : MC7.h = 300 := by
    show ((5 : ℤ) : ℝ) * 60 = 300
    norm_num
  have hfl : MC7.light_interception_method = 1 := rfl
  have g0 : MC7.params_array.getD 0 0 = 0 := rfl
  have g1 : MC7.params_array.getD 1 0 = 1 := rfl
  have g2 : MC7.params_array.getD 2 0 = 1 := rfl
  have g3 : MC7.params_array.getD 3 0 = 1 := rfl
  have g4 : MC7.params_array.getD 4 0 = 1 := rfl
  have g5 : MC7.params_array.getD 5 0 = 1 := rfl
  have g6 : MC7.params_array.getD 6 0 = 0 := rfl
  have g7 : MC7.params_array.getD 7 0 = 0 := rfl
  have g8 : MC7.params_array.getD 8 0 = 1 := rfl
  have g9 : MC7.params_array.getD 9 0 = 1 / 3000 := rfl
  have g10 : MC7.params_array.getD 10 0 = 0 := rfl
  have g11 : MC7.params_array.getD 11 0 = 1 / 3000 := rfl
  have g12 : MC7.params_array.getD 12 0 = 1 / 3000 := rfl
  have g13 : MC7.params_array.getD 13 0 = 1 := rfl
  have g14 : MC7.params_array.getD 14 0 = 1 := rfl
  have g15 : MC7.params_array.getD 15 0 = 1 / 2 := rfl
  have g16 : MC7.params_array.getD 16 0 = 1 := rfl
  have g17 : MC7.params_array.getD 17 0 = 1 := rfl
  have g18 : MC7.params_array.getD 18 0 = 1 := rfl
  have g19 : MC7.params_array.getD 19 0 = 1 := rfl
  have g20 : MC7.params_array.getD 20 0 = 0 := rfl
  have hcore : ∀ a b : ℝ, a ≠ 0 →
      model_core (a, b) (20, 0, 1, 1) MC7.params_array 1 =
        (-(1 / 1500) * b, 1 / 3000 * b) := by
    intro a b ha
    simp only [model_core, lightInterception, g0, g1, g2, g3, g4, g5, g6, g7,
      g8, g9, g10, g11, g12, g13, g14, g15, g16, g17, g18, g19, g20]
    rw [if_neg (by norm_num : ¬ (1 : ℤ) = 0)]
    rw [Prod.mk.injEq]
    have hx : a * 1 / (0 * (b * 1) + a * 1) = 1 := by
      rw [show (0 : ℝ) * (b * 1) + a * 1 = a by ring, mul_one, div_self ha]
    constructor
    · simp only [Real.one_rpow]
      rw [hx]
      ring
    · simp only [Real.one_rpow]
      rw [hx]
      ring
  have e1 : model_core MC7.state (20, 0, 1, 1) MC7.params_array
      MC7.light_interception_method = (-(1 / 1500) * (4 : ℝ), 1 / 3000 * (4 : ℝ)) := by
    rw [hst, hfl]
    exact hcore 1 4 one_ne_zero
  have s2 : MC7.state + (MC7.h / 2) • ((-(1 / 1500) * (4 : ℝ), 1 / 3000 * (4 : ℝ)) : ℝ × ℝ) =
      ((3 / 5 : ℝ), (21 / 5 : ℝ)) := by
    rw [hst, hh, Prod.smul_mk, Prod.mk_add_mk, Prod.mk.injEq, smul_eq_mul, smul_eq_mul]
    constructor <;> norm_num
  have e2 : model_core ((3 / 5 : ℝ), (21 / 5 : ℝ)) (20, 0, 1, 1) MC7.params_array
      MC7.light_interception_method = (-(1 / 1500) * (21 / 5 : ℝ), 1 / 3000 * (21 / 5 : ℝ)) := by
    rw [hfl]
    exact hcore (3 / 5) (21 / 5) (by norm_num)
  have s3 : MC7.state + (MC7.h / 2) •
      ((-(1 / 1500) * (21 / 5 : ℝ), 1 / 3000 * (21 / 5 : ℝ)) : ℝ × ℝ) =
      ((29 / 50 : ℝ), (421 / 100 : ℝ)) := by
    rw [hst, hh, Prod.smul_mk, Prod.mk_add_mk, Prod.mk.injEq, smul_eq_mul, smul_eq_mul]
    constructor <;> norm_num
  have e3 : model_core ((29 / 50 : ℝ), (421 / 100 : ℝ)) (20, 0, 1, 1) MC7.params_array
      MC7.light_interception_method =
      (-(1 / 1500) * (421 / 100 : ℝ), 1 / 3000 * (421 / 100 : ℝ)) := by
    rw [hfl]
    exact hcore (29 / 50) (421 / 100) (by norm_num)
  have s4 : MC7.state + MC7.h •
      ((-(1 / 1500) * (421 / 100 : ℝ), 1 / 3000 * (421 / 100 : ℝ)) : ℝ × ℝ) =
      ((79 / 500 : ℝ), (4421 / 1000 : ℝ)) := by
    rw [hst, hh, Prod.smul_mk, Prod.mk_add_mk, Prod.mk.injEq, smul_eq_mul, smul_eq_mul]
    constructor <;> norm_num
  have e4 : model_core ((79 / 500 : ℝ), (4421 / 1000 : ℝ)) (20, 0, 1, 1) MC7.params_array
      MC7.light_interception_method =
      (-(1 / 1500) * (4421 / 1000 : ℝ), 1 / 3000 * (4421 / 1000 : ℝ)) := by
    rw [hfl]
    exact hcore (79 / 500) (4421 / 1000) (by norm_num)
  simp only [Model.step]
  rw [e1, s2, e2, s3, e3, s4, e4, hst, hh]
  simp only [Prod.smul_mk, Prod.mk_add_mk, smul_eq_mul]
  norm_num

/-- C7 amended: with an empty assimilate pool the rate function cannot
grow structure — the `x1`-component of the ODE right-hand side is `0`
whenever `x0 = 0` (faithfully to the source, the structural denominator
`c_r*x1*pd` is assumed nonzero); a full step with radiation 0 can still
increase `x1` by consuming a positive assimilate pool. -/
theorem rate_no_growth_without_assimilate (x1 temp rad co2 pd : ℝ)
    (pa : List ℝ) (mode : ℤ) (hden : pa.getD 10 0 * (x1 * pd) ≠ 0) :
    (model_core (0, x1) (temp, rad, co2, pd) pa mode).2 = 0 := by
  simp [model_core]

/-- Witness for the amended C7 at a concrete input. -/
theorem rate_no_growth_without_assimilate_witness :
    pa7.getD 10 0 * ((1 : ℝ) * 1) ≠ 0 ∧
    (model_core (0, 1) (20, 0, 1, 1) pa7 0).2 = 0 := by
  have h10 : pa7.getD 10 0 = 1 := rfl
  refine ⟨by rw [h10]; norm_num, ?_⟩
  exact rate_no_growth_without_assimilate 1 20 0 1 1 pa7 0 (by rw [h10]; norm_num)
